import Mathlib

/-!
Verification development for the samlify identity-provider module
(src/entity-idp.ts). The IdentityProvider constructor, createLoginResponse
and parseLoginRequest are embedded shallowly; collaborators that live
outside the provided source (entity.ts genericParser, libsaml helpers,
the urn binding-namespace table, the POST binding builder) are modelled
from the specification and marked as such in their doc comments.
-/

set_option autoImplicit false

namespace Samlify

/-- JavaScript runtime values, restricted to the shapes the identity-provider
settings code manipulates: undefined, null, booleans, numbers, strings,
arrays and plain objects (objects as ordered association lists of own
enumerable properties, mirroring JS insertion order). -/
inductive JsVal where
  | undef
  | nullV
  | bool (b : Bool)
  | num (n : Int)
  | str (s : String)
  | arr (elems : List JsVal)
  | obj (fields : List (String × JsVal))
deriving Repr

/-- First-occurrence lookup of a property key in an object field list. -/
def lookupKey {α : Type} : List (String × α) → String → Option α
  | [], _ => none
  | (k0, v0) :: rest, k => if k0 = k then some v0 else lookupKey rest k

/-- JS property write: replaces the first occurrence of the key in place
(keeping its position, as JS objects keep insertion order), or appends the
key when absent. -/
def setKey {α : Type} : List (String × α) → String → α → List (String × α)
  | [], k, v => [(k, v)]
  | (k0, v0) :: rest, k, v =>
    if k0 = k then (k, v) :: rest else (k0, v0) :: setKey rest k v

/-- Object.assign(target, source): copies every own enumerable property of
the source onto the target, in order, including properties whose value is
undefined. -/
def objAssign {α : Type} (target source : List (String × α)) : List (String × α) :=
  source.foldl (fun acc kv => setKey acc kv.1 kv.2) target

/-- JS truthiness of a value. -/
def truthy : JsVal → Bool
  | .undef => false
  | .nullV => false
  | .bool b => b
  | .num n => decide (n ≠ 0)
  | .str s => decide (s ≠ "")
  | .arr _ => true
  | .obj _ => true

/-- lodash isString. -/
def isStringV : JsVal → Bool
  | .str _ => true
  | _ => false

/-- Array.isArray. -/
def isArrayV : JsVal → Bool
  | .arr _ => true
  | _ => false

/-- The string payload of a string value (only read behind an isStringV check). -/
def strVal : JsVal → String
  | .str s => s
  | _ => ""

/-- The element list of an array value (only read behind an isArrayV check). -/
def arrVal : JsVal → List JsVal
  | .arr xs => xs
  | _ => []

/-- The field list of an object value; non-objects have no own properties. -/
def objFields : JsVal → List (String × JsVal)
  | .obj fs => fs
  | _ => []

/-- JS property read v.k: field lookup on objects, undefined otherwise
(property access on primitives yields undefined for the names used here). -/
def getProp (v : JsVal) (k : String) : JsVal :=
  (lookupKey (objFields v) k).getD JsVal.undef

/-- Opening curly brace character, kept out of string literals. -/
def lbrace : Char := Char.ofNat 123

/-- Closing curly brace character, kept out of string literals. -/
def rbrace : Char := Char.ofNat 125

/-- Wraps a tag name in curly braces, giving the placeholder form used by
the template engine. -/
def braced (tag : String) : String :=
  String.mk (lbrace :: tag.data ++ [rbrace])

/-- When pat is a prefix of s, returns the remainder of s after it. -/
def stripPat : List Char → List Char → Option (List Char)
  | [], s => some s
  | _ :: _, [] => none
  | p :: ps, c :: cs => if p = c then stripPat ps cs else none

/-- Fuel-indexed replacement of every occurrence of pat by rep in s;
with fuel at least the length of s and a nonempty pat this performs the
full left-to-right global replacement. -/
def replaceAllFuel (pat rep : List Char) : Nat → List Char → List Char
  | 0, s => s
  | Nat.succ _, [] => []
  | Nat.succ fuel, c :: rest =>
    match stripPat pat (c :: rest) with
    | some remainder => rep ++ replaceAllFuel pat rep fuel remainder
    | none => c :: replaceAllFuel pat rep fuel rest

/-- Modelled from the spec: libsaml.replaceTagsByValue takes an XML context
string and a mapping from tag name to replacement value and replaces every
occurrence of each braced tag placeholder with its value. -/
def replaceTagsByValue (rawXml : String) (tagValues : List (String × String)) : String :=
  tagValues.foldl
    (fun acc kv =>
      String.mk (replaceAllFuel (braced kv.1).data kv.2.data acc.data.length acc.data))
    rawXml

/-- Modelled from the spec: the fragment libsaml.attributeStatementBuilder
emits for one attribute descriptor (attribute name, name-format, and a
braced value placeholder derived from the descriptor). -/
def attributeFragment (a : JsVal) : String :=
  "<saml:Attribute Name=\x22" ++ strVal (getProp a "name") ++
  "\x22 NameFormat=\x22" ++ strVal (getProp a "nameFormat") ++
  "\x22><saml:AttributeValue>" ++ braced ("attr" ++ strVal (getProp a "valueTag")) ++
  "</saml:AttributeValue></saml:Attribute>"

/-- Modelled from the spec: libsaml.attributeStatementBuilder builds an
AttributeStatement XML fragment from the ordered list of attribute
descriptors, one fragment per descriptor in list order. -/
def attributeStatementBuilder (attributes : List JsVal) : String :=
  "<saml:AttributeStatement>" ++
  String.join (attributes.map attributeFragment) ++
  "</saml:AttributeStatement>"

/-- The default IdP entity settings merged under the caller-supplied
settings (entity-idp.ts lines 56-61). -/
def defaultIdpEntitySetting : List (String × JsVal) :=
  [("wantAuthnRequestsSigned", JsVal.bool false),
   ("tagPrefix", JsVal.obj [("encryptedAssertion", JsVal.str "saml")])]

/-- Result of running the IdentityProvider constructor: the entity settings
passed on to the Entity base constructor, and whether the invalid-template
warning was emitted. -/
structure ConstructResult where
  entitySetting : List (String × JsVal)
  warned : Bool
deriving Repr

/-- The IdentityProvider constructor (entity-idp.ts lines 55-78): merges the
defaults with the caller settings via Object.assign, then, when a truthy
loginResponseTemplate is supplied, either rebuilds its context by
substituting the built AttributeStatement fragment (when context is a
string and attributes is an array) or emits a warning and leaves the merged
settings untouched. -/
def idpConstructor (idpSetting : List (String × JsVal)) : ConstructResult :=
  let entitySetting := objAssign defaultIdpEntitySetting idpSetting
  let tmpl := (lookupKey idpSetting "loginResponseTemplate").getD JsVal.undef
  if truthy tmpl then
    if isStringV (getProp tmpl "context") && isArrayV (getProp tmpl "attributes") then
      let replacement :=
        [("AttributeStatement", attributeStatementBuilder (arrVal (getProp tmpl "attributes")))]
      let estTmpl := (lookupKey entitySetting "loginResponseTemplate").getD JsVal.undef
      let newCtx := replaceTagsByValue (strVal (getProp estTmpl "context")) replacement
      let newTmpl := JsVal.obj (setKey (objFields estTmpl) "context" (JsVal.str newCtx))
      { entitySetting := setKey entitySetting "loginResponseTemplate" newTmpl, warned := false }
    else
      { entitySetting := entitySetting, warned := true }
  else
    { entitySetting := entitySetting, warned := false }

/-- The service-provider peer as seen by the IdP operations: its trusted
signing certificate and the metadata accessor resolving the
assertion-consumer-service endpoint for a binding. -/
structure ServiceProvider where
  signingCert : String
  getAssertionConsumerService : String → String

/-- An IdentityProvider instance after construction: it owns its entity
settings, which the operations only read. -/
structure IdentityProvider where
  entitySetting : List (String × JsVal)

/-- Modelled from the spec: entityMeta.isWantAuthnRequestsSigned reads the
effective wantAuthnRequestsSigned entity setting (entity.ts metadata layer
is not part of the provided source). -/
def isWantAuthnRequestsSigned (idp : IdentityProvider) : Bool :=
  truthy ((lookupKey idp.entitySetting "wantAuthnRequestsSigned").getD JsVal.undef)

/-- Modelled from the spec: the urn.ts namespace.binding table mapping the
binding word to its SAML protocol binding URI; unknown binding words have
no entry. -/
def namespaceBinding (b : String) : Option String :=
  if b = "redirect" then some "urn:oasis:names:tc:SAML:2.0:bindings:HTTP-Redirect"
  else if b = "post" then some "urn:oasis:names:tc:SAML:2.0:bindings:HTTP-POST"
  else if b = "artifact" then some "urn:oasis:names:tc:SAML:2.0:bindings:HTTP-Artifact"
  else none

/-- The transport context produced by the POST binding response builder:
the generated response id and the base64-encoded response body. -/
structure BindingContext where
  id : String
  context : String
deriving Repr

/-- Cryptographic operations a response build may perform; used to record
which side effects a call performed. -/
inductive CryptoEffect where
  | signed
  | encrypted
deriving Repr, DecidableEq

/-- Failure kinds of createLoginResponse. -/
inductive IdpError where
  | unsupportedBinding
deriving Repr, DecidableEq

/-- The payload createLoginResponse returns on success: the spread of the
binding context, the resolved SP assertion-consumer-service endpoint and
the message-type tag. -/
structure LoginResponsePayload where
  id : String
  context : String
  entityEndpoint : String
  type : String

/-- createLoginResponse (entity-idp.ts lines 89-107): resolves the protocol
URI for the binding word (falling back to the redirect URI for unknown
words); when it is the POST URI, runs the POST binding response builder
(postBinding.base64LoginResponse, not part of the provided source, here
abstracted as the postBuild argument yielding a binding context and the
crypto effects it performed) and returns its context extended with the SP
assertion-consumer-service endpoint for the binding and the SAMLResponse
type tag; for every other protocol it fails without performing any crypto
effect. Returns (result, effects performed, final entity state). -/
def createLoginResponse (idp : IdentityProvider) (sp : ServiceProvider) (binding : String)
    (postBuild : IdentityProvider → ServiceProvider → BindingContext × List CryptoEffect) :
    Except IdpError LoginResponsePayload × List CryptoEffect × IdentityProvider :=
  let protocol := (namespaceBinding binding).getD ((namespaceBinding "redirect").getD "")
  if protocol = (namespaceBinding "post").getD "" then
    let built := postBuild idp sp
    (Except.ok
      { id := built.1.id
        context := built.1.context
        entityEndpoint := sp.getAssertionConsumerService binding
        type := "SAMLResponse" },
     built.2, idp)
  else
    (Except.error IdpError.unsupportedBinding, [], idp)

/-- One entry of a parserFormat field specification: a bare element name,
an element whose entire serialized body is extracted, or an element from
which named attributes are extracted. -/
inductive ParserField where
  | simple (localName : String)
  | entireBody (localName : String)
  | withAttributes (localName : String) (attributes : List String)
deriving Repr, DecidableEq

/-- The element or attribute values extractable from a parsed SAML document,
together with the signature evidence the document carries: the digest of
its current body, the digest covered by its embedded signature (when one is
present) and the certificate that produced that signature. -/
structure XmlDoc where
  elems : List (String × String)
  attrs : List (String × List (String × String))
  currentDigest : String
  signedDigest : Option String
  signerCert : Option String
deriving Repr, DecidableEq

/-- Modelled from the spec: the signature engine verification — accepts
exactly when a signature is present, its covered digest matches the digest
of the current body (so any post-signing alteration is rejected) and the
signing certificate matches the trusted certificate of the claimed
sender. -/
def verifySignature (trustedCert : String) (d : XmlDoc) : Bool :=
  match d.signedDigest, d.signerCert with
  | some dg, some c => (dg == d.currentDigest) && (c == trustedCert)
  | _, _ => false

/-- A value extracted for one parserFormat entry. -/
inductive ExtractedValue where
  | text (s : String)
  | body (s : String)
  | attrValues (pairs : List (String × String))
deriving Repr, DecidableEq

/-- Failure kinds of the generic parser. -/
inductive ParseError where
  | bindingDecode
  | malformedXml
  | signatureVerification
  | missingElement (localName : String)
deriving Repr, DecidableEq

/-- The local name a parserFormat entry refers to. -/
def fieldLocalName : ParserField → String
  | .simple n => n
  | .entireBody n => n
  | .withAttributes n _ => n

/-- Extraction of one parserFormat entry from a document; none when the
named element is absent. -/
def extractField (d : XmlDoc) : ParserField → Option ExtractedValue
  | .simple n => (lookupKey d.elems n).map ExtractedValue.text
  | .entireBody n => (lookupKey d.elems n).map ExtractedValue.body
  | .withAttributes n as =>
    (lookupKey d.attrs n).map (fun m =>
      ExtractedValue.attrValues (as.filterMap (fun a => (lookupKey m a).map (fun v => (a, v)))))

/-- All-or-nothing extraction of a parserFormat list: the first absent
required element aborts the whole parse. -/
def extractFields (d : XmlDoc) : List ParserField → Except ParseError (List (String × ExtractedValue))
  | [] => Except.ok []
  | f :: rest =>
    match extractField d f with
    | none => Except.error (ParseError.missingElement (fieldLocalName f))
    | some v => (extractFields d rest).map (fun tail => (fieldLocalName f, v) :: tail)

/-- The options record handed to the generic parser. The TS field from is
named fromEntity here because from is a Lean keyword. -/
structure ParseOptions where
  parserFormat : List ParserField
  fromEntity : ServiceProvider
  checkSignature : Bool
  parserType : String
  type : String

/-- The outcome of the binding decode and XML parse steps on an incoming
transport value: decode failure, XML parse failure, or a parsed document.
The codecs and the XML parser are collaborators outside the provided
source, so the transport value is abstracted by this outcome. -/
inductive DecodeOutcome where
  | decodeFail
  | malformed
  | doc (d : XmlDoc)
deriving Repr, DecidableEq

/-- Modelled from the spec: the generic message parser (entity.ts
genericParser, not part of the provided source) — decode, XML-parse,
verify the signature against the certificate of the from peer when
checkSignature is set (failing hard, with no partial result), then extract
the parserFormat fields all-or-nothing. -/
def genericParser (opts : ParseOptions) (binding : String) (req : DecodeOutcome) :
    Except ParseError (List (String × ExtractedValue)) :=
  match req with
  | .decodeFail => Except.error ParseError.bindingDecode
  | .malformed => Except.error ParseError.malformedXml
  | .doc d =>
    if opts.checkSignature && !verifySignature opts.fromEntity.signingCert d then
      Except.error ParseError.signatureVerification
    else
      extractFields d opts.parserFormat

/-- parseLoginRequest (entity-idp.ts lines 115-132): invokes the generic
parser with the fixed login-request field specification, the sender SP as
trusted peer, checkSignature from this IdP's wantAuthnRequestsSigned
metadata flag, parserType SAMLRequest and type login. Returns the parse
result together with the final entity state. -/
def parseLoginRequest (idp : IdentityProvider) (sp : ServiceProvider) (binding : String)
    (req : DecodeOutcome) :
    Except ParseError (List (String × ExtractedValue)) × IdentityProvider :=
  (genericParser
    { parserFormat :=
        [ParserField.simple "AuthnContextClassRef",
         ParserField.simple "Issuer",
         ParserField.entireBody "Signature",
         ParserField.withAttributes "AuthnRequest" ["ID"],
         ParserField.withAttributes "NameIDPolicy" ["Format", "AllowCreate"]]
      fromEntity := sp
      checkSignature := isWantAuthnRequestsSigned idp
      parserType := "SAMLRequest"
      type := "login" }
    binding req, idp)

/-- A caller setting carrying only an entity id, used as a concrete input. -/
def plainSettingW : List (String × JsVal) :=
  [("entityID", JsVal.str "https://idp.example.com")]

/-- A caller setting whose tagPrefix is the empty object. -/
def emptyTagPrefixSettingW : List (String × JsVal) :=
  [("tagPrefix", JsVal.obj [])]

/-- A caller setting whose wantAuthnRequestsSigned key is bound to the
undefined value. -/
def undefSignedSettingW : List (String × JsVal) :=
  [("wantAuthnRequestsSigned", JsVal.undef)]

/-- An invalid login-response template: its context is a number, not a
string. -/
def badTemplateW : JsVal :=
  JsVal.obj [("context", JsVal.num 42), ("attributes", JsVal.arr [])]

/-- A caller setting carrying the invalid template. -/
def badTemplateSettingW : List (String × JsVal) :=
  [("loginResponseTemplate", badTemplateW)]

/-- The field list of a valid login-response template: a string context
holding the AttributeStatement placeholder and an empty attribute list. -/
def validTemplateFieldsW : List (String × JsVal) :=
  [("context", JsVal.str "<samlp:Response>{AttributeStatement}</samlp:Response>"),
   ("attributes", JsVal.arr [])]

/-- A caller setting carrying the valid template. -/
def validTemplateSettingW : List (String × JsVal) :=
  [("loginResponseTemplate", JsVal.obj validTemplateFieldsW)]

/-- A concrete constructed IdP whose wantAuthnRequestsSigned setting is
true. -/
def idpW : IdentityProvider :=
  { entitySetting := [("wantAuthnRequestsSigned", JsVal.bool true)] }

/-- A concrete SP peer with a known certificate and a fixed
assertion-consumer-service endpoint. -/
def spW : ServiceProvider :=
  { signingCert := "SP-CERT"
    getAssertionConsumerService := fun _ => "https://sp.example.com/acs" }

/-- A concrete POST binding response builder outcome: one signed context. -/
def postBuildW : IdentityProvider → ServiceProvider → BindingContext × List CryptoEffect :=
  fun _ _ => ({ id := "ID_1", context := "QkFTRTY0" }, [CryptoEffect.signed])

/-- A document whose embedded signature covers the original body digest but
whose current body digest differs (a body altered after signing), signed by
the SP certificate. -/
def tamperedDocW : XmlDoc :=
  { elems := [("Issuer", "https://sp.example.com"), ("AuthnContextClassRef", "ctx")]
    attrs := [("AuthnRequest", [("ID", "req-123")]),
              ("NameIDPolicy", [("Format", "altered-format"), ("AllowCreate", "true")])]
    currentDigest := "digest-of-altered-body"
    signedDigest := some "digest-of-original-body"
    signerCert := some "SP-CERT" }

theorem lookupKey_setKey {α : Type} (l : List (String × α)) (k k' : String) (v : α) :
    lookupKey (setKey l k v) k' = if k' = k then some v else lookupKey l k' := by
  induction l with
  | nil =>
    by_cases h : k' = k
    · subst h; simp [setKey, lookupKey]
    · simp [setKey, lookupKey, h, Ne.symm h]
  | cons hd tl ih =>
    obtain ⟨k0, v0⟩ := hd
    by_cases h0 : k0 = k
    · subst h0
      by_cases h : k' = k0
      · subst h; simp [setKey, lookupKey]
      · simp [setKey, lookupKey, h, Ne.symm h]
    · by_cases h1 : k0 = k'
      · subst h1
        simp [setKey, lookupKey, h0]
      · simp [setKey, lookupKey, h0, h1, ih]

theorem lookupKey_eq_none {α : Type} (l : List (String × α)) (k : String)
    (h : k ∉ l.map Prod.fst) : lookupKey l k = none := by
  induction l with
  | nil => rfl
  | cons hd tl ih =>
    obtain ⟨k0, v0⟩ := hd
    simp only [List.map_cons, List.mem_cons, not_or] at h
    simp [lookupKey, Ne.symm h.1, ih h.2]

theorem lookupKey_objAssign {α : Type} (s t : List (String × α)) (k : String)
    (h : (s.map Prod.fst).Nodup) :
    lookupKey (objAssign t s) k = (lookupKey s k).or (lookupKey t k) := by
  induction s generalizing t with
  | nil => simp [objAssign, lookupKey, Option.or]
  | cons hd tl ih =>
    obtain ⟨k0, v0⟩ := hd
    simp only [List.map_cons, List.nodup_cons] at h
    have step : objAssign t ((k0, v0) :: tl) = objAssign (setKey t k0 v0) tl := rfl
    rw [step, ih (setKey t k0 v0) h.2]
    by_cases hk : k = k0
    · subst hk
      have hnone : lookupKey tl k = none := lookupKey_eq_none tl k h.1
      simp [lookupKey, hnone, lookupKey_setKey, Option.or]
    · cases hlt : lookupKey tl k <;>
        simp [lookupKey, Ne.symm hk, hk, lookupKey_setKey, hlt, Option.or]

theorem lookupKey_idpConstructor_of_ne (idpSetting : List (String × JsVal)) (k : String)
    (h : k ≠ "loginResponseTemplate") :
    lookupKey (idpConstructor idpSetting).entitySetting k =
      lookupKey (objAssign defaultIdpEntitySetting idpSetting) k := by
  by_cases h1 :
      truthy ((lookupKey idpSetting "loginResponseTemplate").getD JsVal.undef) = true
  · by_cases h2 :
        (isStringV (getProp ((lookupKey idpSetting "loginResponseTemplate").getD JsVal.undef) "context") &&
         isArrayV (getProp ((lookupKey idpSetting "loginResponseTemplate").getD JsVal.undef) "attributes")) = true
    · simp [idpConstructor, h1, h2, lookupKey_setKey, h]
    · simp [idpConstructor, h1, h2]
  · simp [idpConstructor, h1]

/-- Claim C7: IdentityProvider construction merges a default settings struct
with the caller-supplied settings, caller values taking precedence per
top-level key; when the caller omits wantAuthnRequestsSigned the merged
value is false, and when the caller omits tagPrefix the merged
encrypted-assertion namespace prefix is saml. -/
theorem idp_constructor_merges_defaults (idpSetting : List (String × JsVal))
    (hnd : (idpSetting.map Prod.fst).Nodup)
    (hw : lookupKey idpSetting "wantAuthnRequestsSigned" = none)
    (ht : lookupKey idpSetting "tagPrefix" = none) :
    (∀ k v, lookupKey idpSetting k = some v →
        lookupKey (objAssign defaultIdpEntitySetting idpSetting) k = some v) ∧
    lookupKey (idpConstructor idpSetting).entitySetting "wantAuthnRequestsSigned" =
      some (JsVal.bool false) ∧
    lookupKey (idpConstructor idpSetting).entitySetting "tagPrefix" =
      some (JsVal.obj [("encryptedAssertion", JsVal.str "saml")]) := by
  refine ⟨?_, ?_, ?_⟩
  · intro k v hkv
    rw [lookupKey_objAssign _ _ _ hnd, hkv]
    rfl
  · rw [lookupKey_idpConstructor_of_ne _ _ (by decide),
        lookupKey_objAssign _ _ _ hnd, hw]
    rfl
  · rw [lookupKey_idpConstructor_of_ne _ _ (by decide),
        lookupKey_objAssign _ _ _ hnd, ht]
    rfl

theorem idp_constructor_merges_defaults_witness :
    lookupKey (objAssign defaultIdpEntitySetting plainSettingW) "entityID" =
      some (JsVal.str "https://idp.example.com") ∧
    lookupKey (idpConstructor plainSettingW).entitySetting "wantAuthnRequestsSigned" =
      some (JsVal.bool false) ∧
    lookupKey (idpConstructor plainSettingW).entitySetting "tagPrefix" =
      some (JsVal.obj [("encryptedAssertion", JsVal.str "saml")]) := by
  have h := idp_constructor_merges_defaults plainSettingW (by simp [plainSettingW]) rfl rfl
  exact ⟨h.1 "entityID" _ rfl, h.2.1, h.2.2⟩

/-- Claim C9: the settings merge is shallow per top-level key: a
caller-supplied tagPrefix value replaces the default wholesale, and in
particular an empty tagPrefix object carries no encryptedAssertion default
at all. -/
theorem tagPrefix_merge_is_shallow (idpSetting : List (String × JsVal)) (p : JsVal)
    (hnd : (idpSetting.map Prod.fst).Nodup)
    (hp : lookupKey idpSetting "tagPrefix" = some p) :
    lookupKey (idpConstructor idpSetting).entitySetting "tagPrefix" = some p ∧
    (p = JsVal.obj [] → getProp p "encryptedAssertion" = JsVal.undef) := by
  constructor
  · rw [lookupKey_idpConstructor_of_ne _ _ (by decide),
        lookupKey_objAssign _ _ _ hnd, hp]
    rfl
  · intro hempty
    subst hempty
    rfl

theorem tagPrefix_merge_is_shallow_witness :
    lookupKey (idpConstructor emptyTagPrefixSettingW).entitySetting "tagPrefix" =
      some (JsVal.obj []) ∧
    getProp (JsVal.obj []) "encryptedAssertion" = JsVal.undef := by
  have h := tagPrefix_merge_is_shallow emptyTagPrefixSettingW (JsVal.obj [])
    (by simp [emptyTagPrefixSettingW]) rfl
  exact ⟨h.1, h.2 rfl⟩

/-- Claim C10: a caller-supplied key bound to the undefined value overrides
the default rather than falling back to it: wantAuthnRequestsSigned
supplied as undefined merges to undefined, not to the default false. -/
theorem undefined_setting_overrides_default (idpSetting : List (String × JsVal))
    (hnd : (idpSetting.map Prod.fst).Nodup)
    (hu : lookupKey idpSetting "wantAuthnRequestsSigned" = some JsVal.undef) :
    lookupKey (idpConstructor idpSetting).entitySetting "wantAuthnRequestsSigned" =
      some JsVal.undef ∧
    lookupKey (idpConstructor idpSetting).entitySetting "wantAuthnRequestsSigned" ≠
      some (JsVal.bool false) := by
  have hmain :
      lookupKey (idpConstructor idpSetting).entitySetting "wantAuthnRequestsSigned" =
        some JsVal.undef := by
    rw [lookupKey_idpConstructor_of_ne _ _ (by decide),
        lookupKey_objAssign _ _ _ hnd, hu]
    rfl
  refine ⟨hmain, ?_⟩
  rw [hmain]
  simp

theorem undefined_setting_overrides_default_witness :
    lookupKey (idpConstructor undefSignedSettingW).entitySetting "wantAuthnRequestsSigned" =
      some JsVal.undef ∧
    lookupKey (idpConstructor undefSignedSettingW).entitySetting "wantAuthnRequestsSigned" ≠
      some (JsVal.bool false) :=
  undefined_setting_overrides_default undefSignedSettingW
    (by simp [undefSignedSettingW]) rfl

/-- Claim C2 counterexample: with a present (truthy) loginResponseTemplate
whose context is a number, construction warns, but the template is NOT left
unset: the merged entity settings still hold the caller-supplied invalid
template, so a later call looking for the template finds it present. -/
theorem invalid_template_not_unset_counterexample :
    (idpConstructor badTemplateSettingW).warned = true ∧
    lookupKey (idpConstructor badTemplateSettingW).entitySetting "loginResponseTemplate" =
      some badTemplateW ∧
    lookupKey (idpConstructor badTemplateSettingW).entitySetting "loginResponseTemplate" ≠
      none := by
  have h2 :
      lookupKey (idpConstructor badTemplateSettingW).entitySetting "loginResponseTemplate" =
        some badTemplateW := rfl
  refine ⟨rfl, h2, ?_⟩
  rw [h2]
  simp

/-- Claim C2 (amended): for every caller setting whose loginResponseTemplate
is present and truthy but whose context is not a string or whose attributes
is not an array, construction succeeds, the warning is emitted, and the
merged entity settings keep the caller-supplied template value unchanged
(no AttributeStatement substitution is performed); the template is not
unset. -/
theorem invalid_template_warns_and_keeps_value (idpSetting : List (String × JsVal))
    (tmpl : JsVal)
    (hnd : (idpSetting.map Prod.fst).Nodup)
    (hp : lookupKey idpSetting "loginResponseTemplate" = some tmpl)
    (htr : truthy tmpl = true)
    (hbad : (isStringV (getProp tmpl "context") && isArrayV (getProp tmpl "attributes")) = false) :
    (idpConstructor idpSetting).warned = true ∧
    lookupKey (idpConstructor idpSetting).entitySetting "loginResponseTemplate" = some tmpl := by
  have hget : (lookupKey idpSetting "loginResponseTemplate").getD JsVal.undef = tmpl := by
    rw [hp]; rfl
  constructor
  · simp [idpConstructor, hget, htr, hbad]
  · simp only [idpConstructor, hget, htr, hbad, if_true, if_false, Bool.false_eq_true,
      ite_false, ite_true]
    rw [lookupKey_objAssign _ _ _ hnd, hp]
    rfl

theorem invalid_template_warns_and_keeps_value_witness :
    (idpConstructor badTemplateSettingW).warned = true ∧
    lookupKey (idpConstructor badTemplateSettingW).entitySetting "loginResponseTemplate" =
      some badTemplateW :=
  invalid_template_warns_and_keeps_value badTemplateSettingW badTemplateW
    (by simp [badTemplateSettingW]) rfl rfl rfl

/-- Claim C6: for a valid loginResponseTemplate (string context, array
attributes) the constructor stores a template whose context equals
replaceTagsByValue of the supplied context with the AttributeStatement
placeholder bound to attributeStatementBuilder of the ordered attribute
list, performed at construction before any per-call substitution. -/
theorem valid_template_substitutes_attribute_statement
    (idpSetting : List (String × JsVal)) (fs : List (String × JsVal))
    (ctx : String) (attrs : List JsVal)
    (hnd : (idpSetting.map Prod.fst).Nodup)
    (hp : lookupKey idpSetting "loginResponseTemplate" = some (JsVal.obj fs))
    (hctx : lookupKey fs "context" = some (JsVal.str ctx))
    (hattrs : lookupKey fs "attributes" = some (JsVal.arr attrs)) :
    getProp ((lookupKey (idpConstructor idpSetting).entitySetting
        "loginResponseTemplate").getD JsVal.undef) "context" =
      JsVal.str (replaceTagsByValue ctx
        [("AttributeStatement", attributeStatementBuilder attrs)]) := by
  have hc2 : (lookupKey fs "context").getD JsVal.undef = JsVal.str ctx := by
    rw [hctx]; rfl
  have ha2 : (lookupKey fs "attributes").getD JsVal.undef = JsVal.arr attrs := by
    rw [hattrs]; rfl
  have hest :
      lookupKey (objAssign defaultIdpEntitySetting idpSetting) "loginResponseTemplate" =
        some (JsVal.obj fs) := by
    rw [lookupKey_objAssign _ _ _ hnd, hp]
    rfl
  simp [idpConstructor, hp, hest, getProp, objFields, hc2, ha2, truthy, isStringV, isArrayV,
    strVal, arrVal, lookupKey_setKey]

theorem valid_template_substitutes_attribute_statement_witness :
    getProp ((lookupKey (idpConstructor validTemplateSettingW).entitySetting
        "loginResponseTemplate").getD JsVal.undef) "context" =
      JsVal.str (replaceTagsByValue "<samlp:Response>{AttributeStatement}</samlp:Response>"
        [("AttributeStatement", attributeStatementBuilder [])]) :=
  valid_template_substitutes_attribute_statement validTemplateSettingW validTemplateFieldsW
    "<samlp:Response>{AttributeStatement}</samlp:Response>" []
    (by simp [validTemplateSettingW]) rfl rfl rfl

/-- Claim C1: for every binding argument other than post (including
artifact, redirect, and any unknown word falling back to the redirect
protocol), createLoginResponse fails with the unsupported-binding error,
performs no signing or encryption effect, and never returns a payload. -/
theorem createLoginResponse_unsupported_binding (idp : IdentityProvider) (sp : ServiceProvider)
    (binding : String)
    (postBuild : IdentityProvider → ServiceProvider → BindingContext × List CryptoEffect)
    (h : binding ≠ "post") :
    createLoginResponse idp sp binding postBuild =
      (Except.error IdpError.unsupportedBinding, [], idp) := by
  have hproto : (namespaceBinding binding).getD ((namespaceBinding "redirect").getD "") ≠
      (namespaceBinding "post").getD "" := by
    by_cases h1 : binding = "redirect"
    · subst h1; decide
    · by_cases h3 : binding = "artifact"
      · subst h3; decide
      · rw [show namespaceBinding binding = none by simp [namespaceBinding, h1, h, h3]]
        decide
  unfold createLoginResponse
  simp [hproto]

theorem createLoginResponse_unsupported_binding_witness :
    createLoginResponse idpW spW "artifact" postBuildW =
      (Except.error IdpError.unsupportedBinding, [], idpW) :=
  createLoginResponse_unsupported_binding idpW spW "artifact" postBuildW (by decide)

/-- Claim C5: every createLoginResponse call with the post binding succeeds
and returns the encoded response context produced by the POST binding
builder, the type tag SAMLResponse, and the SP assertion-consumer-service
endpoint resolved for that binding. -/
theorem createLoginResponse_post_payload (idp : IdentityProvider) (sp : ServiceProvider)
    (postBuild : IdentityProvider → ServiceProvider → BindingContext × List CryptoEffect) :
    (createLoginResponse idp sp "post" postBuild).1 =
      Except.ok
        { id := (postBuild idp sp).1.id
          context := (postBuild idp sp).1.context
          entityEndpoint := sp.getAssertionConsumerService "post"
          type := "SAMLResponse" } := rfl

/-- Claim C3: parseLoginRequest invokes the generic parser with exactly the
fixed field specification (AuthnContextClassRef; Issuer; Signature
extracted as entire body; AuthnRequest with attribute ID; NameIDPolicy with
attributes Format and AllowCreate), checkSignature equal to this IdP's
wantAuthnRequestsSigned metadata flag, and the sender SP as the trusted
peer. -/
theorem parseLoginRequest_uses_fixed_field_spec (idp : IdentityProvider)
    (sp : ServiceProvider) (binding : String) (req : DecodeOutcome) :
    (parseLoginRequest idp sp binding req).1 =
      genericParser
        { parserFormat :=
            [ParserField.simple "AuthnContextClassRef",
             ParserField.simple "Issuer",
             ParserField.entireBody "Signature",
             ParserField.withAttributes "AuthnRequest" ["ID"],
             ParserField.withAttributes "NameIDPolicy" ["Format", "AllowCreate"]]
          fromEntity := sp
          checkSignature := isWantAuthnRequestsSigned idp
          parserType := "SAMLRequest"
          type := "login" }
        binding req := rfl

/-- Claim C4: when this IdP requires signed requests and the incoming
document's signature does not verify against the sender SP's certificate
(for example a body altered after signing), parseLoginRequest fails with
the signature-verification error and returns no extracted fields. -/
theorem parseLoginRequest_signature_failure (idp : IdentityProvider) (sp : ServiceProvider)
    (binding : String) (d : XmlDoc)
    (hreq : isWantAuthnRequestsSigned idp = true)
    (hsig : verifySignature sp.signingCert d = false) :
    (parseLoginRequest idp sp binding (DecodeOutcome.doc d)).1 =
      Except.error ParseError.signatureVerification := by
  simp [parseLoginRequest, genericParser, hreq, hsig]

theorem parseLoginRequest_signature_failure_witness :
    (parseLoginRequest idpW spW "post" (DecodeOutcome.doc tamperedDocW)).1 =
      Except.error ParseError.signatureVerification :=
  parseLoginRequest_signature_failure idpW spW "post" tamperedDocW rfl rfl

/-- Claim C8: neither createLoginResponse nor parseLoginRequest writes the
entity settings: the entity state each call returns equals the state it was
called with, on success and on failure alike. -/
theorem operations_preserve_entity_settings (idp : IdentityProvider) (sp : ServiceProvider)
    (binding : String)
    (postBuild : IdentityProvider → ServiceProvider → BindingContext × List CryptoEffect)
    (req : DecodeOutcome) :
    (createLoginResponse idp sp binding postBuild).2.2 = idp ∧
    (parseLoginRequest idp sp binding req).2 = idp := by
  constructor
  · unfold createLoginResponse
    dsimp only
    split <;> rfl
  · rfl

end Samlify
